import Mathlib

/-!
A shallow embedding of the churn-dashboard pipeline in src/app.py.

Rows of the customer table are records; pandas frames are lists of rows;
a missing (NaN) entry of the optional ChurnProbability column is `none`.
Boolean-mask filtering, the scalar KPIs, the heuristic risk score with
np.clip, the column-wide score regeneration, the descending sort with
head(n), the risk-band colors and the add-on adoption rates are embedded
as pure functions over these lists, with rationals standing for the
floating-point arithmetic.
-/

namespace ChurnPredictor

/-- One row of the customer dataset (the schema used by src/app.py).
`churnProbability` is `Option ℚ`: `none` models a missing (NaN) entry of
the optional ChurnProbability column. -/
structure Row where
  customerID : String
  contractType : String
  gender : String
  seniorCitizen : String
  tenureMonths : ℕ
  monthlyCharges : ℚ
  churn : String
  paymentMethod : String
  techSupport : String
  onlineBackup : String
  streamingTV : String
  deviceProtection : String
  churnProbability : Option ℚ
deriving DecidableEq

/-- The sidebar filter state: the selected values of each of the three
filterable dimensions (src/app.py lines 35-43). -/
structure Selection where
  contract : List String
  gender : List String
  senior : List String
deriving DecidableEq

/-- Embeds src/app.py lines 46-50: the conjunction of the three boolean
isin masks, applied to the full table. -/
def filtered_df (df : List Row) (sel : Selection) : List Row :=
  df.filter fun r =>
    sel.contract.contains r.contractType &&
    sel.gender.contains r.gender &&
    sel.senior.contains r.seniorCitizen

/-- Embeds pandas Series.mean over a numeric column: NaN (here `none`) on
an empty series, otherwise sum divided by length. -/
def seriesMean (l : List ℚ) : Option ℚ :=
  if l.length = 0 then none else some (l.sum / (l.length : ℚ))

/-- Embeds src/app.py line 57: row count of the filtered frame. -/
def total_customers (rows : List Row) : ℕ := rows.length

/-- Embeds src/app.py line 58: (Churn == 'Yes').mean() * 100. -/
def churn_rate (rows : List Row) : Option ℚ :=
  (seriesMean (rows.map fun r => if r.churn = "Yes" then (1 : ℚ) else 0)).map
    (fun m => m * 100)

/-- Embeds src/app.py line 59: MonthlyCharges.mean(). -/
def avg_monthly_charge (rows : List Row) : Option ℚ :=
  seriesMean (rows.map Row.monthlyCharges)

/-- Embeds src/app.py line 60: count of rows with TenureMonths > 60. -/
def long_term_customers (rows : List Row) : ℕ :=
  (rows.filter fun r => decide (60 < r.tenureMonths)).length

/-- Embeds src/app.py line 94: the row-wise sum of the boolean frame
(frame[[TechSupport, OnlineBackup, StreamingTV, DeviceProtection]] == 'Yes'). -/
def addOnYesCount (r : Row) : ℕ :=
  (if r.techSupport = "Yes" then 1 else 0) +
  (if r.onlineBackup = "Yes" then 1 else 0) +
  (if r.streamingTV = "Yes" then 1 else 0) +
  (if r.deviceProtection = "Yes" then 1 else 0)

/-- Embeds np.clip(x, 0, 1): first the lower bound, then the upper. -/
def clip01 (x : ℚ) : ℚ := min (max x 0) 1

/-- Embeds src/app.py lines 91-96: the heuristic churn score of one row. -/
def heuristic (r : Row) : ℚ :=
  clip01 (0.4 * (if r.contractType = "Month-to-Month" then (1 : ℚ) else 0) +
          0.3 * (if r.tenureMonths < 12 then (1 : ℚ) else 0) -
          0.05 * (addOnYesCount r : ℚ))

/-- One row after heuristic scoring: only the ChurnProbability entry changes. -/
def scoreRow (r : Row) : Row := { r with churnProbability := some (heuristic r) }

/-- Embeds src/app.py lines 90-96: when the ChurnProbability column is absent
(`hasCol = false`) or any of its entries is null, the whole column is
reassigned from the heuristic; otherwise the frame is untouched. -/
def ensureChurnProbability (hasCol : Bool) (rows : List Row) : List Row :=
  if !hasCol || rows.any (fun r => r.churnProbability.isNone) then
    rows.map scoreRow
  else rows

/-- The sort key of src/app.py line 102 (`by='ChurnProbability'`), read as a
total function; in the app the sort runs after ensureChurnProbability, when
every entry is present. -/
def probKey (r : Row) : ℚ := r.churnProbability.getD 0

/-- The ascending comparison on the sort key. -/
def probLE (a b : Row) : Prop := probKey a ≤ probKey b

instance : DecidableRel probLE :=
  fun a b => inferInstanceAs (Decidable (probKey a ≤ probKey b))

instance : IsTotal Row probLE := ⟨fun a b => le_total (probKey a) (probKey b)⟩

instance : IsTrans Row probLE := ⟨fun _ _ _ h h2 => le_trans h h2⟩

/-- Embeds sort_values(by='ChurnProbability', ascending=False): pandas
(nargsort) argsorts ascending and then reverses the indexer. Numpy's
default quicksort argsort is stable only on short inputs (its insertion-sort
regime), so the insertion sort used here matches the program exactly on
short frames and agrees with it elsewhere up to the order among equal keys;
only conclusions independent of that tie order are drawn for all inputs. -/
def sortDesc (rows : List Row) : List Row :=
  (List.insertionSort probLE rows).reverse

/-- Embeds src/app.py line 102: the descending sort followed by head(top_n). -/
def top_risk (n : ℕ) (rows : List Row) : List Row :=
  (sortDesc rows).take n

/-- Embeds src/app.py lines 109-114: the risk-band color of a probability.
Red is the "high" band, orange "medium", teal "low". -/
def color (prob : ℚ) : String :=
  if prob ≥ 0.7 then "#FF4C4C"
  else if prob ≥ 0.4 then "#FFA500"
  else "#4ECDC4"

/-- Embeds src/app.py line 175: the four add-on columns, as field selectors. -/
def add_ons : List (Row → String) :=
  [Row.techSupport, Row.onlineBackup, Row.streamingTV, Row.deviceProtection]

/-- Embeds src/app.py line 176: (column == 'Yes').mean() for one add-on column. -/
def addOnRate (col : Row → String) (rows : List Row) : Option ℚ :=
  seriesMean (rows.map fun r => if col r = "Yes" then (1 : ℚ) else 0)

/-- Written from the spec's words (section 4.4): 0.4 times the Month-to-Month
indicator, plus 0.3 times the short-tenure indicator, minus 0.05 times the
count of the four add-on attributes equal to "Yes", clamped to [0, 1] from
above first. Compared against `heuristic` for claim C2. -/
def specScore (r : Row) : ℚ :=
  max 0 (min (0.4 * (if r.contractType = "Month-to-Month" then (1 : ℚ) else 0) +
              0.3 * (if r.tenureMonths < 12 then (1 : ℚ) else 0) -
              0.05 * (([r.techSupport, r.onlineBackup, r.streamingTV,
                        r.deviceProtection].countP fun s => s == "Yes") : ℚ)) 1)

/-- A row with the ChurnProbability entry removed; used to state that scoring
touches no other column. -/
def eraseProb (r : Row) : Row := { r with churnProbability := none }

/-- A row with every non-filter field fixed, for concrete instances. -/
def mkRow (contract gender senior churn : String) (tenure : ℕ) (charge : ℚ)
    (ts ob stv dp : String) (prob : Option ℚ) : Row :=
  { customerID := "c", contractType := contract, gender := gender,
    seniorCitizen := senior, tenureMonths := tenure, monthlyCharges := charge,
    churn := churn, paymentMethod := "Card", techSupport := ts,
    onlineBackup := ob, streamingTV := stv, deviceProtection := dp,
    churnProbability := prob }

/-- Sample row: a month-to-month female non-senior customer. -/
def rA : Row := mkRow "Month-to-Month" "F" "0" "No" 20 50 "No" "No" "No" "No" none

/-- Sample row: a one-year male senior customer. -/
def rB : Row := mkRow "One year" "M" "1" "Yes" 30 60 "Yes" "No" "No" "No" none

/-- Sample row with a missing ChurnProbability entry. -/
def rN : Row := mkRow "Two year" "F" "0" "No" 40 70 "No" "Yes" "No" "No" none

/-- Sample row with a present ChurnProbability entry. -/
def rS : Row := mkRow "One year" "F" "0" "No" 50 80 "No" "No" "Yes" "No" (some 1)

/-- Sample row with churn probability 1, first in original order. -/
def rT0 : Row := mkRow "Month-to-Month" "F" "0" "No" 20 50 "No" "No" "No" "No" (some 1)

/-- Sample row with churn probability 1, second in original order. -/
def rT1 : Row := mkRow "One year" "M" "1" "Yes" 30 60 "No" "No" "No" "No" (some 1)

/-- Sample row with churn probability 1 for the top-risk witness. -/
def rW0 : Row := mkRow "Month-to-Month" "F" "0" "No" 20 50 "No" "No" "No" "No" (some 1)

/-- Sample row with churn probability 0 for the top-risk witness. -/
def rW1 : Row := mkRow "One year" "M" "1" "Yes" 30 60 "No" "No" "No" "No" (some 0)

/-- Sample row with Churn equal to "Yes". -/
def rY : Row := mkRow "Month-to-Month" "F" "0" "Yes" 5 50 "No" "No" "No" "No" (some 1)

/-- Sample row with Churn equal to "No". -/
def rNo : Row := mkRow "One year" "M" "1" "No" 30 60 "No" "No" "No" "No" (some 0)

/-- Sample rows for the add-on adoption witness: three of the four have
TechSupport equal to "Yes". -/
def w1 : Row := mkRow "One year" "F" "0" "No" 10 50 "Yes" "No" "No" "No" (some 0)

/-- Second add-on witness row (TechSupport "Yes"). -/
def w2 : Row := mkRow "One year" "M" "0" "No" 11 51 "Yes" "No" "No" "No" (some 0)

/-- Third add-on witness row (TechSupport "Yes"). -/
def w3 : Row := mkRow "Two year" "F" "1" "No" 12 52 "Yes" "No" "No" "No" (some 0)

/-- Fourth add-on witness row (TechSupport "No"). -/
def w4 : Row := mkRow "Two year" "M" "1" "No" 13 53 "No" "No" "No" "No" (some 0)

/-! ## Helper lemmas -/

/-- The sum of a rational 0/1 indicator over a list counts the rows
satisfying the predicate. -/
theorem sum_indicator_eq_countP (p : Row → Prop) [DecidablePred p] :
    ∀ rows : List Row,
      (rows.map fun r => if p r then (1 : ℚ) else 0).sum =
        ((rows.countP fun r => decide (p r)) : ℚ)
  | [] => by simp
  | r :: t => by
    by_cases h : p r <;>
      simp [List.countP_cons, h, sum_indicator_eq_countP p t, add_comm]

/-- The two clamp orientations agree on the interval [0, 1]. -/
theorem clip01_eq_max_min (x : ℚ) : clip01 x = max 0 (min x 1) := by
  unfold clip01
  rcases le_total x 0 with h | h <;> rcases le_total x 1 with h1 | h1 <;>
    simp [min_def, max_def] <;> split_ifs <;> linarith

/-- The clipped score reaches 0.7 exactly when the raw score does. -/
theorem le_clip01_iff (x : ℚ) : 0.7 ≤ clip01 x ↔ 0.7 ≤ x := by
  unfold clip01
  rw [le_min_iff, le_max_iff]
  constructor
  · rintro ⟨h | h, -⟩
    · exact h
    · norm_num at h
  · intro h
    exact ⟨Or.inl h, by norm_num⟩

/-- The add-on count vanishes exactly when none of the four add-on
attributes equals "Yes". -/
theorem addOnYesCount_eq_zero_iff (r : Row) :
    addOnYesCount r = 0 ↔
      (r.techSupport ≠ "Yes" ∧ r.onlineBackup ≠ "Yes" ∧
        r.streamingTV ≠ "Yes" ∧ r.deviceProtection ≠ "Yes") := by
  unfold addOnYesCount
  split_ifs <;> simp_all

/-- The raw heuristic score reaches 0.7 exactly for a month-to-month,
short-tenure customer with no add-ons. -/
theorem heuristic_high_iff (r : Row) :
    0.7 ≤ heuristic r ↔
      (r.contractType = "Month-to-Month" ∧ r.tenureMonths < 12 ∧
        addOnYesCount r = 0) := by
  unfold heuristic
  rw [le_clip01_iff]
  have hk : (0 : ℚ) ≤ (addOnYesCount r : ℚ) := Nat.cast_nonneg _
  by_cases hc : r.contractType = "Month-to-Month" <;>
    by_cases ht : r.tenureMonths < 12 <;> simp [hc, ht]
  · constructor
    · intro h
      have hk0 : (addOnYesCount r : ℚ) = 0 := by linarith
      exact_mod_cast hk0
    · intro h
      rw [h]
      norm_num
  · linarith
  · linarith
  · linarith

/-- The color function assigns red exactly at probability 0.7 and above. -/
theorem color_high_iff (p : ℚ) : color p = "#FF4C4C" ↔ 0.7 ≤ p := by
  unfold color
  split_ifs with h1 h2 <;> simp_all

/-! ## Claim theorems -/

/-- C1: the Filter Engine output contains exactly the rows of the full table
whose ContractType, Gender and SeniorCitizen values are members of the
respective selected sets (conjunction across dimensions); an empty selected
set for any dimension yields an empty result, and the output row count never
exceeds the input row count. -/
theorem filter_engine_exact (df : List Row) (sel : Selection) :
    (∀ r, r ∈ filtered_df df sel ↔
        (r ∈ df ∧ r.contractType ∈ sel.contract ∧ r.gender ∈ sel.gender ∧
          r.seniorCitizen ∈ sel.senior)) ∧
    (sel.contract = [] → filtered_df df sel = []) ∧
    (sel.gender = [] → filtered_df df sel = []) ∧
    (sel.senior = [] → filtered_df df sel = []) ∧
    (filtered_df df sel).length ≤ df.length := by
  refine ⟨?_, ?_, ?_, ?_, List.length_filter_le _ _⟩
  · intro r
    simp [filtered_df, List.mem_filter, and_assoc]
  · intro h
    simp [filtered_df, h]
  · intro h
    simp [filtered_df, h]
  · intro h
    simp [filtered_df, h]

/-- C1 witness: on a concrete two-row table, an empty ContractType selection
yields an empty result. -/
theorem filter_engine_exact_witness :
    filtered_df [rA, rB] (Selection.mk [] ["F", "M"] ["0", "1"]) = [] :=
  (filter_engine_exact [rA, rB] _).2.1 rfl

/-- C2: the regenerated churn-risk score equals the spec formula — 0.4 times
the Month-to-Month indicator, plus 0.3 times the short-tenure indicator,
minus 0.05 times the number of add-ons equal to "Yes", clamped to [0, 1] —
and therefore always lies in [0, 1]. -/
theorem risk_score_formula_and_bounds (r : Row) :
    heuristic r = specScore r ∧ 0 ≤ heuristic r ∧ heuristic r ≤ 1 := by
  refine ⟨?_, ?_, ?_⟩
  · have hcnt :
        (([r.techSupport, r.onlineBackup, r.streamingTV,
            r.deviceProtection].countP fun s => s == "Yes") : ℕ) =
          addOnYesCount r := by
      unfold addOnYesCount
      by_cases h1 : r.techSupport = "Yes" <;>
        by_cases h2 : r.onlineBackup = "Yes" <;>
          by_cases h3 : r.streamingTV = "Yes" <;>
            by_cases h4 : r.deviceProtection = "Yes" <;>
              simp [List.countP_cons, h1, h2, h3, h4]
    unfold heuristic specScore
    rw [hcnt, clip01_eq_max_min]
  · unfold heuristic clip01
    exact le_min (le_max_right _ _) zero_le_one
  · unfold heuristic clip01
    exact min_le_right _ _

/-- C3: the regeneration trigger is column-wide — if the ChurnProbability
column is absent or any entry of it is missing, every row of the frame
receives the heuristic score. -/
theorem regeneration_column_wide (hasCol : Bool) (rows : List Row)
    (h : hasCol = false ∨ ∃ r ∈ rows, r.churnProbability = none) :
    ensureChurnProbability hasCol rows = rows.map scoreRow := by
  unfold ensureChurnProbability
  rw [if_pos]
  rcases h with h | ⟨r, hr, hnone⟩
  · simp [h]
  · refine Bool.or_eq_true_iff.mpr (Or.inr ?_)
    rw [List.any_eq_true]
    exact ⟨r, hr, by simp [hnone]⟩

/-- C3 witness: a two-row frame with one missing entry among its
ChurnProbability values has both rows rescored by the heuristic. -/
theorem regeneration_column_wide_witness :
    ensureChurnProbability true [rN, rS] = List.map scoreRow [rN, rS] :=
  regeneration_column_wide true [rN, rS]
    (Or.inr ⟨rN, by simp, rfl⟩)

/-- C4 counterexample: two rows with equal ChurnProbability come out of the
Top-At-Risk view in reverse original order, not in original order as the
claim's stable-sort tie-breaking demands. -/
theorem top_risk_ties_reversed_cex :
    probKey rT0 = probKey rT1 ∧
    top_risk 5 [rT0, rT1] = [rT1, rT0] ∧
    top_risk 5 [rT0, rT1] ≠ [rT0, rT1] := by
  refine ⟨rfl, by decide, by decide⟩

/-- C4 amended: the Top-At-Risk view returns min(N, subset size) rows (never
pads), sorted descending by ChurnProbability, and every returned row has
probability at least that of every row left out; the order among
equal-probability rows is not part of the contract (the code does not break
ties by original row order). -/
theorem top_risk_amended (n : ℕ) (rows : List Row)
    (h5 : 5 ≤ n) (h20 : n ≤ 20) :
    (top_risk n rows).length = min n rows.length ∧
    (top_risk n rows).Pairwise (fun a b => probKey b ≤ probKey a) ∧
    List.Perm (sortDesc rows) rows ∧
    (∀ a ∈ top_risk n rows, ∀ b ∈ (sortDesc rows).drop n,
      probKey b ≤ probKey a) := by
  have hperm : List.Perm (sortDesc rows) rows :=
    (List.reverse_perm _).trans (List.perm_insertionSort _ _)
  have hpair : (sortDesc rows).Pairwise (fun a b => probKey b ≤ probKey a) := by
    unfold sortDesc
    rw [List.pairwise_reverse]
    exact List.sorted_insertionSort probLE rows
  refine ⟨?_, ?_, hperm, ?_⟩
  · unfold top_risk
    rw [List.length_take, hperm.length_eq]
  · exact hpair.sublist (List.take_sublist _ _)
  · have h2 := hpair
    rw [← List.take_append_drop n (sortDesc rows), List.pairwise_append] at h2
    intro a ha b hb
    exact h2.2.2 a ha b hb

/-- C4 witness: with N = 10 and a concrete two-row subset the view returns
exactly two rows. -/
theorem top_risk_amended_witness :
    (top_risk 10 [rW0, rW1]).length = min 10 2 :=
  (top_risk_amended 10 [rW0, rW1] (by decide) (by decide)).1

/-- C5: the risk-band classification of a returned probability: at least 0.7
gives the "high" band (red), at least 0.4 but below 0.7 the "medium" band
(orange), anything else the "low" band (teal); the boundaries 0.7 and 0.4
fall in "high" and "medium" respectively. -/
theorem risk_banding (p : ℚ) :
    (0.7 ≤ p → color p = "#FF4C4C") ∧
    (0.4 ≤ p → p < 0.7 → color p = "#FFA500") ∧
    (p < 0.4 → color p = "#4ECDC4") := by
  unfold color
  refine ⟨fun h => ?_, fun h1 h2 => ?_, fun h => ?_⟩
  · rw [if_pos h]
  · rw [if_neg (by simpa using not_le.mpr h2), if_pos h1]
  · rw [if_neg, if_neg (by simpa using not_le.mpr h)]
    simp only [ge_iff_le, not_le]
    linarith

/-- C5 witness: the boundary probabilities 0.7 and 0.4 and the low
probability 0.1 receive the high, medium and low bands. -/
theorem risk_banding_witness :
    color 0.7 = "#FF4C4C" ∧ color 0.4 = "#FFA500" ∧ color 0.1 = "#4ECDC4" :=
  ⟨(risk_banding 0.7).1 le_rfl,
   (risk_banding 0.4).2.1 le_rfl (by norm_num),
   (risk_banding 0.1).2.2 (by norm_num)⟩

/-- C6: on a non-empty subset the churn rate equals 100 times the fraction of
rows with Churn equal to "Yes"; it lies in [0, 100], is 0 when no row churns
and 100 when every row does. -/
theorem churn_rate_spec (rows : List Row) (h : rows ≠ []) :
    churn_rate rows =
      some (100 * ((rows.countP fun r => decide (r.churn = "Yes")) : ℚ) /
        rows.length) ∧
    (∀ q, churn_rate rows = some q → 0 ≤ q ∧ q ≤ 100) ∧
    ((∀ r ∈ rows, r.churn ≠ "Yes") → churn_rate rows = some 0) ∧
    ((∀ r ∈ rows, r.churn = "Yes") → churn_rate rows = some 100) := by
  have hne : rows.length ≠ 0 := by
    simpa [List.length_eq_zero] using h
  have hlen : (0 : ℚ) < (rows.length : ℚ) := by
    exact_mod_cast Nat.pos_of_ne_zero hne
  have hC0 : (0 : ℚ) ≤ ((rows.countP fun r => decide (r.churn = "Yes")) : ℚ) :=
    Nat.cast_nonneg _
  have hCle : ((rows.countP fun r => decide (r.churn = "Yes")) : ℚ) ≤
      (rows.length : ℚ) := by
    exact_mod_cast List.countP_le_length _
  have hmain : churn_rate rows =
      some (100 * ((rows.countP fun r => decide (r.churn = "Yes")) : ℚ) /
        rows.length) := by
    unfold churn_rate seriesMean
    rw [List.length_map, if_neg hne,
      sum_indicator_eq_countP (fun r => r.churn = "Yes") rows]
    simp only [Option.map_some']
    congr 1
    field_simp
    ring
  refine ⟨hmain, ?_, ?_, ?_⟩
  · intro q hq
    rw [hmain, Option.some_inj] at hq
    subst hq
    constructor
    · exact div_nonneg (by linarith) hlen.le
    · rw [div_le_iff₀ hlen]
      nlinarith
  · intro hno
    have hz : (rows.countP fun r => decide (r.churn = "Yes")) = 0 := by
      rw [List.countP_eq_zero]
      intro a ha
      simpa using hno a ha
    rw [hmain, hz]
    norm_num
  · intro hyes
    have hall : (rows.countP fun r => decide (r.churn = "Yes")) =
        rows.length := by
      rw [List.countP_eq_length]
      intro a ha
      simpa using hyes a ha
    rw [hmain, hall, Option.some_inj, mul_div_assoc,
      div_self (ne_of_gt hlen), mul_one]

/-- C6 witness: a subset with one churned row out of two has churn rate 50. -/
theorem churn_rate_spec_witness : churn_rate [rY, rNo] = some 50 := by
  have h := (churn_rate_spec [rY, rNo] (by simp)).1
  rw [h]
  norm_num [List.countP_cons, List.countP_nil, rY, rNo, mkRow]
  rw [if_neg (show ¬("No" = "Yes") by decide)]
  norm_num

/-- C7: an empty filtered subset breaks nothing downstream —
total_customers is 0 and churn_rate and avg_monthly_charge take the defined
fallback value `none` (pandas NaN) instead of raising. -/
theorem empty_subset_graceful (df : List Row) (sel : Selection)
    (h : filtered_df df sel = []) :
    total_customers (filtered_df df sel) = 0 ∧
    churn_rate (filtered_df df sel) = none ∧
    avg_monthly_charge (filtered_df df sel) = none := by
  rw [h]
  exact ⟨rfl, rfl, rfl⟩

/-- C7 witness: with every selected set empty, the one-row table filters to
nothing and all three KPIs degrade gracefully. -/
theorem empty_subset_graceful_witness :
    total_customers (filtered_df [rA] (Selection.mk [] [] [])) = 0 ∧
    churn_rate (filtered_df [rA] (Selection.mk [] [] [])) = none ∧
    avg_monthly_charge (filtered_df [rA] (Selection.mk [] [] [])) = none :=
  empty_subset_graceful [rA] (Selection.mk [] [] []) rfl

/-- C8: for each of the four add-on columns, the adoption rate over a
non-empty subset is the fraction of rows whose value in that column equals
"Yes". -/
theorem add_on_adoption_rate (col : Row → String) (hcol : col ∈ add_ons)
    (rows : List Row) (h : rows ≠ []) :
    addOnRate col rows =
      some (((rows.countP fun r => decide (col r = "Yes")) : ℚ) /
        rows.length) := by
  have hne : rows.length ≠ 0 := by
    simpa [List.length_eq_zero] using h
  unfold addOnRate seriesMean
  rw [List.length_map, if_neg hne,
    sum_indicator_eq_countP (fun r => col r = "Yes") rows]

/-- C8 witness: a four-row subset where three rows have TechSupport "Yes"
has TechSupport adoption rate 3/4. -/
theorem add_on_adoption_rate_witness :
    addOnRate Row.techSupport [w1, w2, w3, w4] = some (3 / 4) := by
  have h := add_on_adoption_rate Row.techSupport (by simp [add_ons])
    [w1, w2, w3, w4] (by simp)
  rw [h]
  norm_num [List.countP_cons, List.countP_nil, w1, w2, w3, w4, mkRow]
  rw [if_neg (show ¬("No" = "Yes") by decide)]
  norm_num

/-- C9: the source table is never mutated — filtering yields a sublist of
the full table, and heuristic scoring changes only the ChurnProbability
column: erasing it recovers the original rows, and the row count is kept. -/
theorem source_table_not_mutated (df : List Row) (sel : Selection)
    (hasCol : Bool) (rows : List Row) :
    List.Sublist (filtered_df df sel) df ∧
    (ensureChurnProbability hasCol rows).map eraseProb =
      rows.map eraseProb ∧
    (ensureChurnProbability hasCol rows).length = rows.length := by
  refine ⟨List.filter_sublist _, ?_, ?_⟩ <;> unfold ensureChurnProbability <;>
    split
  · rw [List.map_map]
    exact List.map_congr_left fun a _ => rfl
  · rfl
  · rw [List.length_map]
  · rfl

/-- C10: every heuristic score is at most 0.7, and a heuristic-scored row is
in the "high" (red) band exactly when it is month-to-month with tenure under
12 months and no add-on equal to "Yes". -/
theorem heuristic_max_and_high_band (r : Row) :
    heuristic r ≤ 0.7 ∧
    (color (heuristic r) = "#FF4C4C" ↔
      (r.contractType = "Month-to-Month" ∧ r.tenureMonths < 12 ∧
        r.techSupport ≠ "Yes" ∧ r.onlineBackup ≠ "Yes" ∧
        r.streamingTV ≠ "Yes" ∧ r.deviceProtection ≠ "Yes")) := by
  constructor
  · have hk : (0 : ℚ) ≤ (addOnYesCount r : ℚ) := Nat.cast_nonneg _
    unfold heuristic clip01
    refine le_trans (min_le_left _ _) (max_le ?_ (by norm_num))
    split_ifs <;> linarith
  · rw [color_high_iff, heuristic_high_iff, addOnYesCount_eq_zero_iff]

end ChurnPredictor
